import Mathlib

/-!
Verification of the Observatory discovery engine.

This file gives a shallow embedding of the discovery core of the
repository: the static knowledge graph and its resolver functions
(`src/lib/discovery/knowledgeGraph.ts`), the persistent versioned state
store (`src/lib/discovery/store.ts`: default state, migration, load,
init, and the mutation operations), and the observable effects of the
mutation operations (persistence writes and event emissions), followed
by theorems settling the specification claims.

Modelling conventions:
* JavaScript numbers are modelled as `Int` (every number the store
  manipulates is an integer; `Math.round` over the ratios that occur
  here is exact in rationals, with no representable tie, so rational
  rounding coincides with the source float computation).
* Timestamps are passed in as parameters `now : String` (the ISO date
  string) and `nowMs : Int` (the millisecond clock), since the source
  reads the ambient clock.
* The `emit` calls of the event bus and the `save` calls to storage are
  modelled as an explicit list of `Effect` values returned next to the
  new state, in emission order.
-/

/-- Node category enumeration from `KnowledgeNode.category`. -/
inductive NodeCategory where
  | star
  | constellation
  | game
  | terminal
  | loop
  | visit
  | time
  | meta
deriving DecidableEq

/-- Interface `KnowledgeNode` from `knowledgeGraph.ts`. -/
structure KnowledgeNode where
  id : String
  label : String
  category : NodeCategory
  description : String
  requires : List String
  unlocks : List String
  hint : String
deriving DecidableEq

/-- Interface `KnowledgeGraphData` from `knowledgeGraph.ts`. -/
structure KnowledgeGraphData where
  nodes : List KnowledgeNode
deriving DecidableEq

/-- The static knowledge graph `graphData` from `knowledgeGraph.ts`,
transcribed node for node. -/
def graphData : KnowledgeGraphData :=
  { nodes :=
    [ { id := "star:first-click"
      , label := "First Light"
      , category := .star
      , description := "You clicked your first star."
      , requires := []
      , unlocks := ["star:pattern-hint"]
      , hint := "The stars are not just decoration." }
    , { id := "star:pattern-hint"
      , label := "Pattern Recognition"
      , category := .star
      , description := "A hint appeared about star patterns."
      , requires := ["star:first-click"]
      , unlocks := []
      , hint := "Some stars belong together." }
    , { id := "constellation:orion"
      , label := "The Hunter"
      , category := .constellation
      , description := "You formed the Orion constellation."
      , requires := ["star:first-click"]
      , unlocks := ["gate:orion-story"]
      , hint := "Three stars in a row..." }
    , { id := "constellation:cassiopeia"
      , label := "The Queen"
      , category := .constellation
      , description := "You formed the Cassiopeia constellation."
      , requires := ["star:first-click"]
      , unlocks := ["gate:cassiopeia-story"]
      , hint := "Five stars make a W." }
    , { id := "constellation:lyra"
      , label := "The Lyre"
      , category := .constellation
      , description := "You formed the Lyra constellation."
      , requires := ["star:first-click"]
      , unlocks := ["gate:lyra-story"]
      , hint := "Music lives among the stars." }
    , { id := "game:star-catcher"
      , label := "Star Catcher"
      , category := .game
      , description := "You completed Star Catcher."
      , requires := []
      , unlocks := ["gate:game-stories"]
      , hint := "Some words are more than text." }
    , { id := "game:signal-decoder"
      , label := "Signal Decoder"
      , category := .game
      , description := "You completed Signal Decoder."
      , requires := []
      , unlocks := ["gate:game-stories"]
      , hint := "Listen to the signals." }
    , { id := "game:gravity-hop"
      , label := "Gravity Hop"
      , category := .game
      , description := "You completed Gravity Hop."
      , requires := []
      , unlocks := ["gate:game-stories"]
      , hint := "What goes up..." }
    , { id := "game:nebula-painter"
      , label := "Nebula Painter"
      , category := .game
      , description := "You completed Nebula Painter."
      , requires := []
      , unlocks := ["gate:game-stories"]
      , hint := "Create something beautiful." }
    , { id := "terminal:first-command"
      , label := "First Transmission"
      , category := .terminal
      , description := "You typed your first terminal command."
      , requires := []
      , unlocks := ["gate:terminal-stories"]
      , hint := "Up up down down..." }
    , { id := "loop:first-reset"
      , label := "Time Loop"
      , category := .loop
      , description := "You experienced your first 22-minute loop."
      , requires := []
      , unlocks := ["gate:loop-story"]
      , hint := "Time moves in circles here." }
    , { id := "visit:returning"
      , label := "Return Visitor"
      , category := .visit
      , description := "You came back."
      , requires := []
      , unlocks := ["gate:returning-content"]
      , hint := "Come back tomorrow." }
    , { id := "meta:deep-game"
      , label := "The Deep"
      , category := .meta
      , description := "You found the deep game."
      , requires := ["star:first-click", "terminal:first-command", "game:star-catcher"]
      , unlocks := ["game:deep-complete"]
      , hint := "There is more beyond what you see." }
    , { id := "game:deep-complete"
      , label := "Deep Explorer"
      , category := .game
      , description := "You completed the deep game."
      , requires := ["meta:deep-game"]
      , unlocks := []
      , hint := "Finish what you started in the deep." } ] }

/-- Function `getNodes` from `knowledgeGraph.ts`. -/
def getNodes : List KnowledgeNode :=
  graphData.nodes

/-- Function `getNode` from `knowledgeGraph.ts`: `graphData.nodes.find((n) => n.id === id)`. -/
def getNode (id : String) : Option KnowledgeNode :=
  graphData.nodes.find? (fun n => n.id == id)

/-- Function `isUnlocked` from `knowledgeGraph.ts`: missing node gives `false`,
otherwise `node.requires.every((req) => discoveries.includes(req))`. -/
def isUnlocked (nodeId : String) (discoveries : List String) : Bool :=
  match getNode nodeId with
  | none => false
  | some node => node.requires.all (fun req => discoveries.contains req)

/-- Function `getUnlockedBy` from `knowledgeGraph.ts`. -/
def getUnlockedBy (discoveryId : String) : List KnowledgeNode :=
  graphData.nodes.filter (fun n => n.requires.contains discoveryId)

/-- Function `getDiscoveredNodes` from `knowledgeGraph.ts`. -/
def getDiscoveredNodes (discoveries : List String) : List KnowledgeNode :=
  graphData.nodes.filter (fun n => discoveries.contains n.id)

/-- Function `getHintableNodes` from `knowledgeGraph.ts`: filters out discovered
nodes, keeps a node when `requires` is empty or some requirement is in
`discoveries`. -/
def getHintableNodes (discoveries : List String) : List KnowledgeNode :=
  graphData.nodes.filter (fun n =>
    if discoveries.contains n.id then false
    else n.requires.length == 0 || n.requires.any (fun req => discoveries.contains req))

/-- JavaScript `Math.round`: round half toward positive infinity. -/
def jsRound (q : ℚ) : ℤ :=
  ⌊q + 1 / 2⌋

/-- Function `getProgress` from `knowledgeGraph.ts`:
`Math.round((discoveries.length / graphData.nodes.length) * 100)`. -/
def getProgress (discoveries : List String) : ℤ :=
  jsRound (((discoveries.length : ℚ) / (graphData.nodes.length : ℚ)) * 100)

/-- The static graph has exactly 14 nodes. -/
theorem graphData_nodes_length : graphData.nodes.length = 14 := rfl

/-- Constant `SCHEMA_VERSION` from `store.ts`. -/
def SCHEMA_VERSION : Int := 1

/-- Interface `DiscoveryState` from `store.ts`, at its declared types
(string lists for the set-valued fields). -/
structure DiscoveryState where
  version : Int
  discoveries : List String
  constellations : List String
  gamesCompleted : List String
  terminalCommands : List String
  visitCount : Int
  firstVisitDate : String
  lastVisitDate : String
  sessionStart : Int
  loopCount : Int
  audioEnabled : Bool
  totalClickedStars : Int
deriving DecidableEq

/-- Function `createDefaultState` from `store.ts`, with the ambient clock passed
in as `now` (ISO string) and `nowMs` (millisecond count). -/
def createDefaultState (now : String) (nowMs : Int) : DiscoveryState :=
  { version := SCHEMA_VERSION
  , discoveries := []
  , constellations := []
  , gamesCompleted := []
  , terminalCommands := []
  , visitCount := 0
  , firstVisitDate := now
  , lastVisitDate := now
  , sessionStart := nowMs
  , loopCount := 0
  , audioEnabled := false
  , totalClickedStars := 0 }

/-- The event payloads of `events.ts`, one constructor per topic of
`ObservatoryEventMap` used by the store. -/
inductive ObservatoryEvent where
  | discovery (id category label : String)
  | constellationComplete (name : String) (stars : List String)
  | gameComplete (gameId : String) (score : Int)
  | terminalCommand (command output : String)
  | visit (count : Int) (isFirstVisit : Bool)
  | loopReset (loopCount : Int)
  | audioToggle (enabled : Bool)
  | stateChange (discoveries : List String) (totalCount : Nat)
deriving DecidableEq

/-- Observable side effects of a store operation, in order: `save`
writes the full state to storage, `emit` dispatches an event on the
bus. -/
inductive Effect where
  | save (s : DiscoveryState)
  | emit (e : ObservatoryEvent)
deriving DecidableEq

/-- Function `addDiscovery` from `store.ts`: no-op returning `false` when the id
is already present; otherwise push, save, emit discovery then
state-change, return `true`. -/
def addDiscovery (id category label : String) (s : DiscoveryState) :
    DiscoveryState × List Effect × Bool :=
  if s.discoveries.contains id then (s, [], false)
  else
    let s1 := { s with discoveries := s.discoveries ++ [id] }
    (s1,
     [ Effect.save s1
     , Effect.emit (.discovery id category label)
     , Effect.emit (.stateChange s1.discoveries s1.discoveries.length) ],
     true)

/-- Function `addConstellation` from `store.ts`: no-op returning `false` when the
name is already present; otherwise push, save, emit
constellation-complete, then cascade into `addDiscovery`. -/
def addConstellation (name : String) (stars : List String) (s : DiscoveryState) :
    DiscoveryState × List Effect × Bool :=
  if s.constellations.contains name then (s, [], false)
  else
    let s1 := { s with constellations := s.constellations ++ [name] }
    let r := addDiscovery ("constellation:" ++ name) "constellation" ("Formed " ++ name) s1
    (r.1, Effect.save s1 :: Effect.emit (.constellationComplete name stars) :: r.2.1, true)

/-- Function `addGameComplete` from `store.ts`: no-op returning `false` when the
game id is already present; otherwise push, save, emit game-complete,
then cascade into `addDiscovery`. -/
def addGameComplete (gameId : String) (score : Int) (s : DiscoveryState) :
    DiscoveryState × List Effect × Bool :=
  if s.gamesCompleted.contains gameId then (s, [], false)
  else
    let s1 := { s with gamesCompleted := s.gamesCompleted ++ [gameId] }
    let r := addDiscovery ("game:" ++ gameId) "game" ("Completed " ++ gameId) s1
    (r.1, Effect.save s1 :: Effect.emit (.gameComplete gameId score) :: r.2.1, true)

/-- Function `addTerminalCommand` from `store.ts`: when the command is new, push
and save, and when it is the very first command, cascade into
`addDiscovery` of `terminal:first-command`; in every case emit the
terminal-command event last. -/
def addTerminalCommand (command output : String) (s : DiscoveryState) :
    DiscoveryState × List Effect :=
  if s.terminalCommands.contains command then
    (s, [Effect.emit (.terminalCommand command output)])
  else
    let s1 := { s with terminalCommands := s.terminalCommands ++ [command] }
    let r :=
      if s1.terminalCommands.length = 1 then
        let d := addDiscovery "terminal:first-command" "terminal" "First terminal command" s1
        (d.1, d.2.1)
      else (s1, ([] : List Effect))
    (r.1, Effect.save s1 :: r.2 ++ [Effect.emit (.terminalCommand command output)])

/-- Function `clickStar` from `store.ts`: increment the counter, save, cascade
into `addDiscovery` on the first click, return the counter. -/
def clickStar (s : DiscoveryState) : DiscoveryState × List Effect × Int :=
  let s1 := { s with totalClickedStars := s.totalClickedStars + 1 }
  let r :=
    if s1.totalClickedStars = 1 then
      let d := addDiscovery "star:first-click" "star" "Clicked first star" s1
      (d.1, d.2.1)
    else (s1, ([] : List Effect))
  (r.1, Effect.save s1 :: r.2, r.1.totalClickedStars)

/-- Function `toggleAudio` from `store.ts`. -/
def toggleAudio (s : DiscoveryState) : DiscoveryState × List Effect × Bool :=
  let s1 := { s with audioEnabled := !s.audioEnabled }
  (s1, [Effect.save s1, Effect.emit (.audioToggle s1.audioEnabled)], s1.audioEnabled)

/-- Function `incrementLoop` from `store.ts`: increment, save, emit loop-reset,
cascade into `addDiscovery` on the first loop, return the counter. -/
def incrementLoop (s : DiscoveryState) : DiscoveryState × List Effect × Int :=
  let s1 := { s with loopCount := s.loopCount + 1 }
  let r :=
    if s1.loopCount = 1 then
      let d := addDiscovery "loop:first-reset" "loop" "First time loop" s1
      (d.1, d.2.1)
    else (s1, ([] : List Effect))
  (r.1, Effect.save s1 :: Effect.emit (.loopReset s1.loopCount) :: r.2, r.1.loopCount)

/-- One mutation call on the state store within a session, with its
arguments. -/
inductive StoreOp where
  | record (id category label : String)
  | constellation (name : String) (stars : List String)
  | game (gameId : String) (score : Int)
  | terminal (command output : String)
  | starClick
  | audio
  | loopTick
deriving DecidableEq

/-- State transition of one store operation (the state component of the
corresponding store function). -/
def applyOp : StoreOp → DiscoveryState → DiscoveryState
  | .record id category label, s => (addDiscovery id category label s).1
  | .constellation name stars, s => (addConstellation name stars s).1
  | .game gameId score, s => (addGameComplete gameId score s).1
  | .terminal command output, s => (addTerminalCommand command output s).1
  | .starClick, s => (clickStar s).1
  | .audio, s => (toggleAudio s).1
  | .loopTick, s => (incrementLoop s).1

/-- Run a sequence of store operations from a starting state. -/
def runOps (ops : List StoreOp) (s : DiscoveryState) : DiscoveryState :=
  ops.foldl (fun t op => applyOp op t) s

/-- Dynamically typed JSON value, for the loosely typed persisted record
that `migrate` receives (`Record<string, unknown>`). Numbers are
modelled as integers; nested objects never occur in the fields the
store reads. -/
inductive JSValue where
  | null
  | bool (b : Bool)
  | num (n : Int)
  | str (s : String)
  | arr (elems : List JSValue)

/-- JavaScript truthiness of a value (objects and arrays are truthy). -/
def jsTruthy : JSValue → Bool
  | .null => false
  | .bool b => b
  | .num n => n != 0
  | .str s => s != ""
  | .arr _ => true

/-- JavaScript numeric coercion, `none` standing for NaN. Strings are
coerced through integer parsing (the versions that occur are integers);
array coercion is modelled as NaN and is never exercised by a claim. -/
def jsToNumber : JSValue → Option Int
  | .null => some 0
  | .bool b => some (if b then 1 else 0)
  | .num n => some n
  | .str s => if s = "" then some 0 else s.toInt?
  | .arr _ => none

/-- The JavaScript comparison `v < 1` (false when `v` coerces to NaN). -/
def jsLtOne (v : JSValue) : Bool :=
  match jsToNumber v with
  | some n => decide (n < 1)
  | none => false

/-- The guard `!raw.version || (raw.version as number) < 1` of
`migrate`; a missing field reads as `undefined`, which is falsy. -/
def versionBelowOne : Option JSValue → Bool
  | none => true
  | some v => !jsTruthy v || jsLtOne v

/-- A parsed persisted record, projected onto the field names the
current schema knows; every field is optional and loosely typed, as in
`Record<string, unknown>`. -/
structure RawRecord where
  version : Option JSValue := none
  discoveries : Option JSValue := none
  constellations : Option JSValue := none
  gamesCompleted : Option JSValue := none
  terminalCommands : Option JSValue := none
  visitCount : Option JSValue := none
  firstVisitDate : Option JSValue := none
  lastVisitDate : Option JSValue := none
  sessionStart : Option JSValue := none
  loopCount : Option JSValue := none
  audioEnabled : Option JSValue := none
  totalClickedStars : Option JSValue := none

/-- The in-memory state as the runtime actually holds it after a load:
the list-valued fields keep whatever array elements the persisted
record supplied (the source performs no element-level validation), so
they are lists of dynamic values rather than of strings. -/
structure RawState where
  version : Int
  discoveries : List JSValue
  constellations : List JSValue
  gamesCompleted : List JSValue
  terminalCommands : List JSValue
  visitCount : Int
  firstVisitDate : String
  lastVisitDate : String
  sessionStart : Int
  loopCount : Int
  audioEnabled : Bool
  totalClickedStars : Int

/-- Function `createDefaultState` from `store.ts`, viewed at the runtime layer
used by load and migration. -/
def createDefaultRaw (now : String) (nowMs : Int) : RawState :=
  { version := SCHEMA_VERSION
  , discoveries := []
  , constellations := []
  , gamesCompleted := []
  , terminalCommands := []
  , visitCount := 0
  , firstVisitDate := now
  , lastVisitDate := now
  , sessionStart := nowMs
  , loopCount := 0
  , audioEnabled := false
  , totalClickedStars := 0 }

/-- Function `migrate` from `store.ts`: start from the defaults; when the version
is missing, falsy or numerically below 1, copy `discoveries` if it is an
array (elements unchecked), `visitCount` if it is a number and
`firstVisitDate` if it is a string; finally set the current version. -/
def migrate (now : String) (nowMs : Int) (raw : RawRecord) : RawState :=
  let state := createDefaultRaw now nowMs
  let state :=
    if versionBelowOne raw.version then
      let state :=
        match raw.discoveries with
        | some (.arr xs) => { state with discoveries := xs }
        | _ => state
      let state :=
        match raw.visitCount with
        | some (.num n) => { state with visitCount := n }
        | _ => state
      match raw.firstVisitDate with
      | some (.str d) => { state with firstVisitDate := d }
      | _ => state
    else state
  { state with version := SCHEMA_VERSION }

/-- The blind cast `parsed as unknown as DiscoveryState` that `load`
performs on a current-version record. The source validates nothing and
repairs nothing: a mis-shaped or missing field is kept or left absent
verbatim, which a typed state cannot express; this model reads each
field when it has the declared shape and falls back to the default
otherwise. The model therefore coincides with the source exactly on
records every one of whose fields has the declared shape — such as the
store's own persisted output, the only input at which any theorem
below evaluates this branch — and no theorem relies on this branch
away from that region. -/
def castRecord (now : String) (nowMs : Int) (r : RawRecord) : RawState :=
  let d := createDefaultRaw now nowMs
  { version := match r.version with | some (.num n) => n | _ => d.version
  , discoveries := match r.discoveries with | some (.arr xs) => xs | _ => d.discoveries
  , constellations := match r.constellations with | some (.arr xs) => xs | _ => d.constellations
  , gamesCompleted := match r.gamesCompleted with | some (.arr xs) => xs | _ => d.gamesCompleted
  , terminalCommands := match r.terminalCommands with | some (.arr xs) => xs | _ => d.terminalCommands
  , visitCount := match r.visitCount with | some (.num n) => n | _ => d.visitCount
  , firstVisitDate := match r.firstVisitDate with | some (.str x) => x | _ => d.firstVisitDate
  , lastVisitDate := match r.lastVisitDate with | some (.str x) => x | _ => d.lastVisitDate
  , sessionStart := match r.sessionStart with | some (.num n) => n | _ => d.sessionStart
  , loopCount := match r.loopCount with | some (.num n) => n | _ => d.loopCount
  , audioEnabled := match r.audioEnabled with | some (.bool b) => b | _ => d.audioEnabled
  , totalClickedStars := match r.totalClickedStars with | some (.num n) => n | _ => d.totalClickedStars }

/-- What `load` finds under the storage key: nothing, an unparsable
string, or a parsed record. -/
inductive Persisted where
  | absent
  | unparsable
  | record (r : RawRecord)

/-- Function `load` from `store.ts`: defaults when the key is absent or the JSON
parse throws; the record itself (cast, unvalidated) when its version is
strictly equal to the current schema version; `migrate` otherwise. -/
def load (now : String) (nowMs : Int) (p : Persisted) : RawState :=
  match p with
  | .absent => createDefaultRaw now nowMs
  | .unparsable => createDefaultRaw now nowMs
  | .record r =>
      match r.version with
      | some (.num n) =>
          if n = SCHEMA_VERSION then castRecord now nowMs r else migrate now nowMs r
      | _ => migrate now nowMs r

/-- The state component of `init` from `store.ts`: load, then increment
`visitCount`, set `lastVisitDate` and `sessionStart`. The source then
saves the state and emits the visit event; those effects do not touch
the state and are not needed by the state claims. -/
def init (now : String) (nowMs : Int) (p : Persisted) : RawState :=
  let state := load now nowMs p
  { state with
      visitCount := state.visitCount + 1
    , lastVisitDate := now
    , sessionStart := nowMs }

/-- Serialize a runtime state back to a parsed record: the effect of
`JSON.stringify` in `save` followed by `JSON.parse` in the next `load`. -/
def persistRaw (s : RawState) : RawRecord :=
  { version := some (.num s.version)
  , discoveries := some (.arr s.discoveries)
  , constellations := some (.arr s.constellations)
  , gamesCompleted := some (.arr s.gamesCompleted)
  , terminalCommands := some (.arr s.terminalCommands)
  , visitCount := some (.num s.visitCount)
  , firstVisitDate := some (.str s.firstVisitDate)
  , lastVisitDate := some (.str s.lastVisitDate)
  , sessionStart := some (.num s.sessionStart)
  , loopCount := some (.num s.loopCount)
  , audioEnabled := some (.bool s.audioEnabled)
  , totalClickedStars := some (.num s.totalClickedStars) }

/-- Whether a dynamic value is a string. -/
def isStr : JSValue → Bool
  | .str _ => true
  | _ => false

/-- Whether every element of every list-valued field of the runtime
state is a string, i.e. the state matches the declared schema types. -/
def wellTypedRaw (s : RawState) : Bool :=
  s.discoveries.all isStr && s.constellations.all isStr &&
    s.gamesCompleted.all isStr && s.terminalCommands.all isStr

/-- Whether every array-valued field a persisted record supplies has
only string elements. -/
def recordListFieldsStr (r : RawRecord) : Bool :=
  (match r.discoveries with | some (.arr xs) => xs.all isStr | _ => true) &&
  (match r.constellations with | some (.arr xs) => xs.all isStr | _ => true) &&
  (match r.gamesCompleted with | some (.arr xs) => xs.all isStr | _ => true) &&
  (match r.terminalCommands with | some (.arr xs) => xs.all isStr | _ => true)

/-- Helper: `find?` by a key returns the element itself when the keys of
the list are pairwise distinct. -/
theorem find?_key_eq_self {α : Type} (key : α → String) :
    ∀ (l : List α), (l.map key).Nodup → ∀ n ∈ l, l.find? (fun m => key m == key n) = some n := by
  intro l
  induction l with
  | nil => intro _ n hn; cases hn
  | cons x xs ih =>
    intro hnd n hn
    rw [List.map_cons, List.nodup_cons] at hnd
    rcases List.mem_cons.mp hn with rfl | hmem
    · exact List.find?_cons_of_pos xs (by simp)
    · have hne : key x ≠ key n := by
        intro he
        exact hnd.1 (he ▸ List.mem_map_of_mem key hmem)
      rw [List.find?_cons_of_neg xs (by simp [hne])]
      exact ih hnd.2 n hmem

/-- The ids of the static graph are pairwise distinct. -/
theorem graphData_ids_nodup : (graphData.nodes.map (fun m => m.id)).Nodup := by
  decide

/-- C2: for every node of the static graph and every discovery list,
`isUnlocked` on that node's id returns `true` exactly when every id in
the node's `requires` list is a member of the discovery list; in
particular a node with empty `requires` is unlocked for every discovery
list. -/
theorem isUnlocked_iff_requires (n : KnowledgeNode) (hn : n ∈ graphData.nodes)
    (discoveries : List String) :
    (isUnlocked n.id discoveries = true ↔ ∀ req ∈ n.requires, req ∈ discoveries) ∧
    (n.requires = [] → isUnlocked n.id discoveries = true) := by
  have hfind : getNode n.id = some n :=
    find?_key_eq_self (fun m : KnowledgeNode => m.id) graphData.nodes graphData_ids_nodup n hn
  have hiff : isUnlocked n.id discoveries = true ↔ ∀ req ∈ n.requires, req ∈ discoveries := by
    rw [isUnlocked, hfind]
    simp [List.all_eq_true]
  exact ⟨hiff, fun he => hiff.mpr (by simp [he])⟩

/-- Witness for C2 at a concrete node and discovery list: the node
`star:pattern-hint` requires `star:first-click`, and is unlocked once
that id is discovered. -/
theorem isUnlocked_iff_requires_witness :
    ({ id := "star:pattern-hint"
     , label := "Pattern Recognition"
     , category := .star
     , description := "A hint appeared about star patterns."
     , requires := ["star:first-click"]
     , unlocks := []
     , hint := "Some stars belong together." } : KnowledgeNode) ∈ graphData.nodes ∧
    isUnlocked "star:pattern-hint" ["star:first-click"] = true :=
  ⟨by decide,
   (isUnlocked_iff_requires
     { id := "star:pattern-hint"
     , label := "Pattern Recognition"
     , category := .star
     , description := "A hint appeared about star patterns."
     , requires := ["star:first-click"]
     , unlocks := []
     , hint := "Some stars belong together." }
     (by decide) ["star:first-click"]).1.mpr (by decide)⟩

/-- C1: `addDiscovery` is idempotent: when the id is already a member of
`discoveries` the call returns `false`, performs no effect and leaves
the whole state unchanged; and a second call right after a first call
with the same arguments returns `false` and leaves the state of the
first call unchanged. -/
theorem addDiscovery_idempotent (id category label : String) (s : DiscoveryState) :
    (id ∈ s.discoveries → addDiscovery id category label s = (s, [], false)) ∧
    addDiscovery id category label (addDiscovery id category label s).1 =
      ((addDiscovery id category label s).1, [], false) := by
  have hstop : ∀ t : DiscoveryState, id ∈ t.discoveries →
      addDiscovery id category label t = (t, [], false) := by
    intro t ht
    simp [addDiscovery, ht]
  refine ⟨hstop s, ?_⟩
  by_cases h : id ∈ s.discoveries
  · rw [hstop s h]
    exact hstop s h
  · have h1 : (addDiscovery id category label s).1.discoveries = s.discoveries ++ [id] := by
      simp [addDiscovery, h]
    exact hstop _ (by rw [h1]; simp)

/-- Witness for C1 at a concrete id and state: recording the same
discovery twice from the default state. -/
theorem addDiscovery_idempotent_witness :
    "star:first-click" ∈
      (addDiscovery "star:first-click" "star" "Clicked first star"
        (createDefaultState "2024-01-01" 0)).1.discoveries ∧
    addDiscovery "star:first-click" "star" "Clicked first star"
        (addDiscovery "star:first-click" "star" "Clicked first star"
          (createDefaultState "2024-01-01" 0)).1 =
      ((addDiscovery "star:first-click" "star" "Clicked first star"
          (createDefaultState "2024-01-01" 0)).1, [], false) :=
  ⟨by decide,
   (addDiscovery_idempotent "star:first-click" "star" "Clicked first star"
     (createDefaultState "2024-01-01" 0)).2⟩

/-- C3: a node is returned by `getHintableNodes` exactly when it is a
graph node, its id is not in the discovery list, and its `requires`
list is empty or meets the discovery list (OR semantics); consequently
no returned node is already discovered. -/
theorem getHintableNodes_mem (discoveries : List String) (n : KnowledgeNode) :
    (n ∈ getHintableNodes discoveries ↔
      n ∈ graphData.nodes ∧ n.id ∉ discoveries ∧
        (n.requires = [] ∨ ∃ req ∈ n.requires, req ∈ discoveries)) ∧
    (n ∈ getHintableNodes discoveries → n.id ∉ discoveries) := by
  have hiff : n ∈ getHintableNodes discoveries ↔
      n ∈ graphData.nodes ∧ n.id ∉ discoveries ∧
        (n.requires = [] ∨ ∃ req ∈ n.requires, req ∈ discoveries) := by
    rw [getHintableNodes, List.mem_filter]
    by_cases hc : n.id ∈ discoveries
    · simp [hc]
    · simp [hc, List.length_eq_zero, List.any_eq_true, and_assoc]
  exact ⟨hiff, fun h => (hiff.mp h).2.1⟩

/-- Witness for C3 at a concrete discovery list: once `star:first-click`
is discovered, the Orion node (one requirement, now met) is hintable and
is itself undiscovered. -/
theorem getHintableNodes_mem_witness :
    ({ id := "constellation:orion"
     , label := "The Hunter"
     , category := .constellation
     , description := "You formed the Orion constellation."
     , requires := ["star:first-click"]
     , unlocks := ["gate:orion-story"]
     , hint := "Three stars in a row..." } : KnowledgeNode) ∈
      getHintableNodes ["star:first-click"] :=
  (getHintableNodes_mem ["star:first-click"]
    { id := "constellation:orion"
    , label := "The Hunter"
    , category := .constellation
    , description := "You formed the Orion constellation."
    , requires := ["star:first-click"]
    , unlocks := ["gate:orion-story"]
    , hint := "Three stars in a row..." }).1.mpr
    ⟨by decide, by decide, Or.inr ⟨"star:first-click", by decide, by decide⟩⟩

/-- Helper: `addDiscovery` either leaves `discoveries` unchanged or
appends exactly the recorded id. -/
theorem addDiscovery_extends (id category label : String) (s : DiscoveryState) :
    ∃ t, (addDiscovery id category label s).1.discoveries = s.discoveries ++ t := by
  by_cases h : id ∈ s.discoveries
  · exact ⟨[], by simp [addDiscovery, h]⟩
  · exact ⟨[id], by simp [addDiscovery, h]⟩

/-- Helper: every store operation only ever appends to `discoveries`. -/
theorem applyOp_extends (op : StoreOp) (s : DiscoveryState) :
    ∃ t, (applyOp op s).discoveries = s.discoveries ++ t := by
  have hself : ∀ u : List String, u = u ++ [] := by simp
  cases op with
  | record id category label => exact addDiscovery_extends id category label s
  | constellation name stars =>
    simp only [applyOp, addConstellation]
    split
    · exact ⟨[], hself _⟩
    · obtain ⟨t, ht⟩ := addDiscovery_extends ("constellation:" ++ name) "constellation"
        ("Formed " ++ name) { s with constellations := s.constellations ++ [name] }
      exact ⟨t, ht⟩
  | game gameId score =>
    simp only [applyOp, addGameComplete]
    split
    · exact ⟨[], hself _⟩
    · obtain ⟨t, ht⟩ := addDiscovery_extends ("game:" ++ gameId) "game"
        ("Completed " ++ gameId) { s with gamesCompleted := s.gamesCompleted ++ [gameId] }
      exact ⟨t, ht⟩
  | terminal command output =>
    simp only [applyOp, addTerminalCommand]
    split
    · exact ⟨[], hself _⟩
    · split
      · obtain ⟨t, ht⟩ := addDiscovery_extends "terminal:first-command" "terminal"
          "First terminal command" { s with terminalCommands := s.terminalCommands ++ [command] }
        exact ⟨t, ht⟩
      · exact ⟨[], hself _⟩
  | starClick =>
    simp only [applyOp, clickStar]
    split
    · obtain ⟨t, ht⟩ := addDiscovery_extends "star:first-click" "star" "Clicked first star"
        { s with totalClickedStars := s.totalClickedStars + 1 }
      exact ⟨t, ht⟩
    · exact ⟨[], hself _⟩
  | audio => exact ⟨[], hself _⟩
  | loopTick =>
    simp only [applyOp, incrementLoop]
    split
    · obtain ⟨t, ht⟩ := addDiscovery_extends "loop:first-reset" "loop" "First time loop"
        { s with loopCount := s.loopCount + 1 }
      exact ⟨t, ht⟩
    · exact ⟨[], hself _⟩

/-- Helper: `getProgress` is monotone in the length of the discovery
list. -/
theorem getProgress_mono {a b : List String} (h : a.length ≤ b.length) :
    getProgress a ≤ getProgress b := by
  unfold getProgress jsRound
  apply Int.floor_le_floor
  gcongr

/-- C7: along any sequence of store operations, both the length of
`discoveries` and `getProgress` of the current discoveries are
non-decreasing from each state to the next. -/
theorem store_ops_monotone (pre : List StoreOp) (op : StoreOp) (s : DiscoveryState) :
    (runOps pre s).discoveries.length ≤ (runOps (pre ++ [op]) s).discoveries.length ∧
    getProgress (runOps pre s).discoveries ≤ getProgress (runOps (pre ++ [op]) s).discoveries := by
  have hrun : runOps (pre ++ [op]) s = applyOp op (runOps pre s) := by
    simp [runOps, List.foldl_append]
  rcases applyOp_extends op (runOps pre s) with ⟨t, ht⟩
  have hlen : (runOps pre s).discoveries.length ≤
      (applyOp op (runOps pre s)).discoveries.length := by
    rw [ht]; simp
  rw [hrun]
  exact ⟨hlen, getProgress_mono hlen⟩

/-- Modelled from the spec: progress as
`round(100 * |discoveries intersect allNodeIds| / |allNodeIds|)` — the
percentage over the ids of the supplied set that are also graph node
ids. This follows the wording of the spec; compare `getProgress`, which
follows the source. -/
def specProgress (discoveries : List String) : ℤ :=
  jsRound ((100 * ((discoveries.dedup.filter
      (fun d => (graphData.nodes.map (fun n => n.id)).contains d)).length : ℚ)) /
    (graphData.nodes.length : ℚ))

/-- C4 counterexample: on a discovery list holding one id that is not a
graph node id (`night:flashlight`, which a component really records),
the source computes 7 percent from the raw length while the claimed
intersection formula gives 0; the two disagree. -/
theorem getProgress_counterexample :
    getProgress ["night:flashlight"] = 7 ∧
    specProgress ["night:flashlight"] = 0 ∧
    getProgress ["night:flashlight"] ≠ specProgress ["night:flashlight"] := by
  have h1 : getProgress ["night:flashlight"] = 7 := by
    norm_num [getProgress, jsRound, graphData_nodes_length]
  have hl : (["night:flashlight"].dedup.filter
      (fun d => (graphData.nodes.map (fun n => n.id)).contains d)).length = 0 := by decide
  have h2 : specProgress ["night:flashlight"] = 0 := by
    unfold specProgress
    rw [hl, graphData_nodes_length]
    norm_num [jsRound]
  refine ⟨h1, h2, ?_⟩
  rw [h1, h2]
  decide

/-- C4 amended: `getProgress` divides the raw length of the supplied
list by the node count; on lists without duplicates whose ids are all
graph node ids it coincides with the spec's intersection formula. -/
theorem getProgress_eq_spec_of_graph_ids (discoveries : List String)
    (hnd : discoveries.Nodup)
    (hmem : ∀ d ∈ discoveries, d ∈ graphData.nodes.map (fun n => n.id)) :
    getProgress discoveries = specProgress discoveries := by
  unfold getProgress specProgress
  rw [List.dedup_eq_self.mpr hnd]
  have hf : discoveries.filter
      (fun d => (graphData.nodes.map (fun n => n.id)).contains d) = discoveries := by
    apply List.filter_eq_self.mpr
    intro a ha
    simp [hmem a ha]
  rw [hf]
  congr 1
  ring

/-- Witness for C4 amended, at a concrete duplicate-free list of three
real graph node ids. -/
theorem getProgress_eq_spec_witness :
    (["star:first-click", "constellation:orion", "game:gravity-hop"] : List String).Nodup ∧
    getProgress ["star:first-click", "constellation:orion", "game:gravity-hop"] =
      specProgress ["star:first-click", "constellation:orion", "game:gravity-hop"] :=
  ⟨by decide,
   getProgress_eq_spec_of_graph_ids
     ["star:first-click", "constellation:orion", "game:gravity-hop"]
     (by decide) (by decide)⟩

/-- Helper: an id found in the discoveries after `addDiscovery` was
either already there or is the recorded id. -/
theorem mem_addDiscovery (id category label x : String) (s : DiscoveryState)
    (h : x ∈ (addDiscovery id category label s).1.discoveries) :
    x ∈ s.discoveries ∨ x = id := by
  by_cases hc : id ∈ s.discoveries
  · simp [addDiscovery, hc] at h
    exact Or.inl h
  · simp [addDiscovery, hc] at h
    exact h

/-- C9 counterexample: the TimeSensor component calls
`addDiscovery("night:flashlight", ...)`; from the default state this
puts `night:flashlight` into `discoveries`, and that id is not the id
of any node of the static knowledge graph. -/
theorem component_records_non_graph_id :
    "night:flashlight" ∈
      (addDiscovery "night:flashlight" "time" "Night vision activated"
        (createDefaultState "2024-01-01" 0)).1.discoveries ∧
    "night:flashlight" ∉ graphData.nodes.map (fun n => n.id) := by
  constructor
  · decide
  · decide

/-- C9 amended: the fixed-milestone cascades of the store itself
(first terminal command, first star click, first loop) only ever add
graph node ids to `discoveries`; the invariant fails only for ids
supplied from outside the store, as in the counterexample. -/
theorem milestone_cascades_add_graph_ids (s : DiscoveryState)
    (command output x : String) :
    (x ∈ (addTerminalCommand command output s).1.discoveries →
      x ∈ s.discoveries ∨ x ∈ graphData.nodes.map (fun n => n.id)) ∧
    (x ∈ (clickStar s).1.discoveries →
      x ∈ s.discoveries ∨ x ∈ graphData.nodes.map (fun n => n.id)) ∧
    (x ∈ (incrementLoop s).1.discoveries →
      x ∈ s.discoveries ∨ x ∈ graphData.nodes.map (fun n => n.id)) := by
  refine ⟨?_, ?_, ?_⟩
  · simp only [addTerminalCommand]
    split
    · exact fun h => Or.inl h
    · split
      · intro h
        rcases mem_addDiscovery "terminal:first-command" "terminal"
            "First terminal command" x _ h with hm | rfl
        · exact Or.inl hm
        · exact Or.inr (by decide)
      · exact fun h => Or.inl h
  · simp only [clickStar]
    split
    · intro h
      rcases mem_addDiscovery "star:first-click" "star" "Clicked first star" x _ h with hm | rfl
      · exact Or.inl hm
      · exact Or.inr (by decide)
    · exact fun h => Or.inl h
  · simp only [incrementLoop]
    split
    · intro h
      rcases mem_addDiscovery "loop:first-reset" "loop" "First time loop" x _ h with hm | rfl
      · exact Or.inl hm
      · exact Or.inr (by decide)
    · exact fun h => Or.inl h

/-- Witness for C9 amended: the first recorded terminal command from
the default state adds only the graph id `terminal:first-command`. -/
theorem milestone_cascades_witness :
    "terminal:first-command" ∈
      (addTerminalCommand "help" "Available commands"
        (createDefaultState "2024-01-01" 0)).1.discoveries ∧
    ("terminal:first-command" ∈ (createDefaultState "2024-01-01" 0).discoveries ∨
      "terminal:first-command" ∈ graphData.nodes.map (fun n => n.id)) :=
  ⟨by decide,
   (milestone_cascades_add_graph_ids (createDefaultState "2024-01-01" 0)
     "help" "Available commands" "terminal:first-command").1 (by decide)⟩

/-- C10: `addTerminalCommand` emits the terminal-command event on every
call; on a duplicate command the state is unchanged, nothing is saved
and no other event fires; and on a first-ever command (empty history,
first-command discovery not yet made) it cascades into `addDiscovery`
of `terminal:first-command`, appending that id and emitting its
discovery event. -/
theorem addTerminalCommand_effects (command output : String) (s : DiscoveryState) :
    Effect.emit (.terminalCommand command output) ∈ (addTerminalCommand command output s).2 ∧
    (command ∈ s.terminalCommands →
      addTerminalCommand command output s =
        (s, [Effect.emit (.terminalCommand command output)])) ∧
    (command ∉ s.terminalCommands → s.terminalCommands = [] →
      "terminal:first-command" ∉ s.discoveries →
      (addTerminalCommand command output s).1.discoveries =
        s.discoveries ++ ["terminal:first-command"] ∧
      Effect.emit (.discovery "terminal:first-command" "terminal" "First terminal command") ∈
        (addTerminalCommand command output s).2) := by
  by_cases hc : command ∈ s.terminalCommands
  · refine ⟨?_, fun _ => ?_, fun hn => absurd hc hn⟩
    · simp [addTerminalCommand, hc]
    · simp [addTerminalCommand, hc]
  · refine ⟨?_, fun hmem => absurd hmem hc, fun _ hT hd => ?_⟩
    · simp only [addTerminalCommand]
      split
      · simp
      · simp
    · constructor
      · simp [addTerminalCommand, addDiscovery, hc, hT, hd]
      · simp [addTerminalCommand, addDiscovery, hc, hT, hd]

/-- Witness for C10: recording `help` twice from the default state —
the first call cascades into the first-command discovery, the second
call leaves the state of the first call unchanged and only emits the
terminal-command event. -/
theorem addTerminalCommand_effects_witness :
    ("help" ∉ (createDefaultState "2024-01-01" 0).terminalCommands ∧
      (addTerminalCommand "help" "Available commands"
          (createDefaultState "2024-01-01" 0)).1.discoveries =
        (createDefaultState "2024-01-01" 0).discoveries ++ ["terminal:first-command"]) ∧
    ("help" ∈ (addTerminalCommand "help" "Available commands"
        (createDefaultState "2024-01-01" 0)).1.terminalCommands ∧
      addTerminalCommand "help" "second time"
          (addTerminalCommand "help" "Available commands"
            (createDefaultState "2024-01-01" 0)).1 =
        ((addTerminalCommand "help" "Available commands"
            (createDefaultState "2024-01-01" 0)).1,
          [Effect.emit (.terminalCommand "help" "second time")])) :=
  ⟨⟨by decide,
    ((addTerminalCommand_effects "help" "Available commands"
        (createDefaultState "2024-01-01" 0)).2.2 (by decide) (by decide) (by decide)).1⟩,
   ⟨by decide,
    (addTerminalCommand_effects "help" "second time"
        (addTerminalCommand "help" "Available commands"
          (createDefaultState "2024-01-01" 0)).1).2.1 (by decide)⟩⟩

/-- Helper: under the version-0 guard, `migrate` copies exactly the
three checked fields over the defaults. -/
theorem migrate_v0_fields (now : String) (nowMs : Int) (r : RawRecord)
    (h : versionBelowOne r.version = true) :
    migrate now nowMs r =
      { createDefaultRaw now nowMs with
          discoveries := match r.discoveries with | some (.arr xs) => xs | _ => []
        , visitCount := match r.visitCount with | some (.num n) => n | _ => 0
        , firstVisitDate := match r.firstVisitDate with | some (.str d) => d | _ => now } := by
  obtain ⟨vv, di, co, ga, te, vi, fi, la, se, lo, au, tc⟩ := r
  have h' : versionBelowOne vv = true := h
  simp only [migrate]
  rw [if_pos h']
  rcases di with _ | (_ | _ | _ | _ | xs) <;>
    rcases vi with _ | (_ | _ | _ | _ | _) <;>
      rcases fi with _ | (_ | _ | _ | _ | _) <;> rfl

/-- Helper: when the persisted version is not strictly the number
`SCHEMA_VERSION`, `load` runs `migrate`. -/
theorem load_record_eq_migrate (now : String) (nowMs : Int) (r : RawRecord)
    (h : ∀ n : Int, r.version = some (.num n) → n ≠ SCHEMA_VERSION) :
    load now nowMs (.record r) = migrate now nowMs r := by
  rcases hv : r.version with _ | (_ | _ | n | _ | _)
  · simp [load, hv]
  · simp [load, hv]
  · simp [load, hv]
  · simp [load, hv, h n hv]
  · simp [load, hv]
  · simp [load, hv]

/-- C6 counterexample: a persisted record with the unknown version 2
and a type-correct version-0 `discoveries` field is not treated as
version 0 — `load` copies nothing and returns the defaults, against the
claimed full migration. -/
theorem load_version2_drops_fields :
    (load "2024-01-01" 0 (.record
        { version := some (.num 2), discoveries := some (.arr [.str "a"]) })).discoveries
      = [] ∧
    ([] : List JSValue) ≠ [JSValue.str "a"] :=
  ⟨rfl, fun h => List.noConfusion h⟩

/-- C6 amended: a record whose version is missing, falsy or numerically
below 1 goes through the full version-0 migration (the three known
fields copied when type-correct, everything else default, version set
to current); a record with any other version that is not strictly the
current one yields the pure defaults, with nothing copied. -/
theorem load_unknown_version (now : String) (nowMs : Int) (r : RawRecord) :
    (versionBelowOne r.version = true →
      load now nowMs (.record r) = migrate now nowMs r ∧
      migrate now nowMs r =
        { createDefaultRaw now nowMs with
            discoveries := match r.discoveries with | some (.arr xs) => xs | _ => []
          , visitCount := match r.visitCount with | some (.num n) => n | _ => 0
          , firstVisitDate := match r.firstVisitDate with | some (.str d) => d | _ => now }) ∧
    (versionBelowOne r.version = false →
      (∀ n : Int, r.version = some (.num n) → n ≠ SCHEMA_VERSION) →
      load now nowMs (.record r) = createDefaultRaw now nowMs) := by
  constructor
  · intro h
    have hne : ∀ n : Int, r.version = some (.num n) → n ≠ SCHEMA_VERSION := by
      intro n hv he
      subst he
      rw [hv] at h
      simp [versionBelowOne, jsTruthy, jsLtOne, jsToNumber, SCHEMA_VERSION] at h
    exact ⟨load_record_eq_migrate now nowMs r hne, migrate_v0_fields now nowMs r h⟩
  · intro h hne
    rw [load_record_eq_migrate now nowMs r hne]
    unfold migrate
    simp only [h]
    rfl

/-- Witness for C6 at a concrete version-0 record (explicit version 0,
one discovery): `load` runs the migration. -/
theorem load_unknown_version_witness :
    versionBelowOne (some (JSValue.num 0)) = true ∧
    load "2024-01-01" 0 (.record
        { version := some (.num 0), discoveries := some (.arr [.str "a"]) }) =
      migrate "2024-01-01" 0
        { version := some (.num 0), discoveries := some (.arr [.str "a"]) } :=
  ⟨rfl,
   ((load_unknown_version "2024-01-01" 0
      { version := some (.num 0), discoveries := some (.arr [.str "a"]) }).1 rfl).1⟩

/-- C5 counterexample: migrating the version-0 record holding only
`discoveries = ["a"]` yields a state with that discovery, but applying
the migration function again to the persisted result yields the
defaults — the discovery is dropped, so re-migration is not a no-op. -/
theorem migrate_remigrate_changes_state :
    (migrate "2024-01-01" 0 { discoveries := some (.arr [.str "a"]) }).discoveries
      = [JSValue.str "a"] ∧
    (migrate "2024-01-01" 0 (persistRaw
        (migrate "2024-01-01" 0 { discoveries := some (.arr [.str "a"]) }))).discoveries
      = [] ∧
    ([] : List JSValue) ≠ [JSValue.str "a"] :=
  ⟨rfl, rfl, fun h => List.noConfusion h⟩

/-- C5 amended: migrating the version-0 record holding only
`discoveries = ["a"]` yields a current-version state with
`discoveries = ["a"]` and every other field at its default; and
re-LOADING the persisted result is a no-op, because `load` returns
current-version records unchanged without calling `migrate`. -/
theorem migrate_v0_roundtrip (now : String) (nowMs : Int) :
    migrate now nowMs { discoveries := some (.arr [.str "a"]) } =
      { createDefaultRaw now nowMs with discoveries := [JSValue.str "a"] } ∧
    load now nowMs (.record (persistRaw
        (migrate now nowMs { discoveries := some (.arr [.str "a"]) }))) =
      migrate now nowMs { discoveries := some (.arr [.str "a"]) } :=
  ⟨rfl, rfl⟩

/-- Helper: a copied array field whose elements were all strings stays
all strings; a fallback field is the empty list. -/
theorem all_isStr_of_field (o : Option JSValue)
    (h : (match o with | some (.arr xs) => xs.all isStr | _ => true) = true) :
    (match o with | some (.arr xs) => xs | _ => ([] : List JSValue)).all isStr = true := by
  rcases o with _ | (_ | _ | _ | _ | xs)
  · rfl
  · rfl
  · rfl
  · rfl
  · rfl
  · exact h

/-- Helper: the migration result is element-wise well typed whenever
the record's arrays held only strings. -/
theorem wellTypedRaw_migrate (now : String) (nowMs : Int) (r : RawRecord)
    (h : recordListFieldsStr r = true) :
    wellTypedRaw (migrate now nowMs r) = true := by
  by_cases hg : versionBelowOne r.version = true
  · rw [migrate_v0_fields now nowMs r hg]
    simp only [recordListFieldsStr, Bool.and_eq_true] at h
    obtain ⟨⟨⟨h1, _⟩, _⟩, _⟩ := h
    simp only [wellTypedRaw, Bool.and_eq_true]
    exact ⟨⟨⟨all_isStr_of_field r.discoveries h1, rfl⟩, rfl⟩, rfl⟩
  · have hg' : versionBelowOne r.version = false := by
      cases hb : versionBelowOne r.version
      · rfl
      · exact absurd hb hg
    unfold migrate
    simp only [hg']
    rfl

/-- Helper: `init` only touches scalar fields, so it preserves
element-wise well-typedness of the loaded state. -/
theorem wellTypedRaw_init_eq (now : String) (nowMs : Int) (p : Persisted) :
    wellTypedRaw (init now nowMs p) = wellTypedRaw (load now nowMs p) := by
  unfold init
  generalize load now nowMs p = st
  cases st
  rfl

/-- C8 counterexample: `init` over a persisted version-0 record whose
`discoveries` array holds the number 42 returns a state whose
`discoveries` still holds that number — the field is copied with only
an array-shape check, so the resulting state does not have a value of
the declared type (a list of string ids). -/
theorem init_type_leak :
    (init "2024-01-01" 0 (.record
        { discoveries := some (.arr [.num 42]) })).discoveries = [JSValue.num 42] ∧
    wellTypedRaw (init "2024-01-01" 0 (.record
        { discoveries := some (.arr [.num 42]) })) = false :=
  ⟨rfl, rfl⟩

/-- C8 amended: for persisted input that is absent, unparsable, or a
record whose version is not strictly the current version number, `init`
returns a state built by the migration pipeline over the defaults:
every field of the current schema is present, every scalar field is
type-correct (copied only under a typeof check, default otherwise), and
the list-valued fields are element-wise type-correct provided every
array the record supplied held only strings. A current-version record
is returned by the source as a blind unvalidated cast, with no
guarantee at all, and is excluded here. -/
theorem init_wellTyped_noncurrent (now : String) (nowMs : Int) (p : Persisted)
    (hv : ∀ r, p = .record r → ∀ n : Int, r.version = some (.num n) → n ≠ SCHEMA_VERSION)
    (h : ∀ r, p = .record r → recordListFieldsStr r = true) :
    wellTypedRaw (init now nowMs p) = true := by
  rw [wellTypedRaw_init_eq]
  cases p with
  | absent => rfl
  | unparsable => rfl
  | record r =>
    rw [load_record_eq_migrate now nowMs r (hv r rfl)]
    exact wellTypedRaw_migrate now nowMs r (h r rfl)

/-- Witness for C8 at a concrete version-0 record with a string-only
array: the version is 0, not current, and the initialized state is
fully well typed. -/
theorem init_wellTyped_noncurrent_witness :
    (∀ n : Int, (some (JSValue.num 0) : Option JSValue) = some (.num n) →
      n ≠ SCHEMA_VERSION) ∧
    wellTypedRaw (init "2024-01-01" 0 (.record
        { version := some (.num 0), discoveries := some (.arr [.str "a"]) })) = true :=
  ⟨fun n hn => by
      simp only [Option.some.injEq, JSValue.num.injEq] at hn
      simp [SCHEMA_VERSION]
      omega,
   init_wellTyped_noncurrent "2024-01-01" 0
     (.record { version := some (.num 0), discoveries := some (.arr [.str "a"]) })
     (fun r hr => by
        cases hr
        intro n hn
        simp only [Option.some.injEq, JSValue.num.injEq] at hn
        simp [SCHEMA_VERSION]
        omega)
     (fun r hr => by cases hr; rfl)⟩
